import Mathlib

/-!
Verification of the display/navigation state machine of `services/menu/menu.py`.

The Python module keeps its state in module-level globals (`selected_index`,
`menu_offset`, `current_view`, `show_weather`, `background_cycle_start`,
`last_user_activity`, the `stop_event` flag and `submenu_thread`).  We embed
those globals as one record `S` and each handler as a pure function
`S → S × List Act`, where `Act` records the externally observable actions a
handler performs (rendering the menu, playing a transition, spawning a thread,
joining with a timeout).  Screen renderers (`draw_system_screen`,
`draw_weather_screen`, pixel text drawing) are external collaborators producing
opaque bitmaps and are not part of the navigation state.

Timestamps (`time.time()` values) are modelled as rationals; Python integers
as `Int`, with Euclidean `%`, which agrees with Python `%` for the positive
modulus used here.
-/

namespace NasMenu

/-- Display width in pixels (`WIDTH, HEIGHT = 128, 64`). -/
def WIDTH : ℕ := 128

/-- Display height in pixels. -/
def HEIGHT : ℕ := 64

/-- The fixed menu labels (`menu_items` in the source). -/
def menu_items : List String :=
  ["Show Clock", "Show Uptime", "Load Average", "Disk Space", "SMART Status",
   "Animation", "Game of Life", "Space Invaders", "Restart Jellyfin",
   "Restart Samba", "PowerOff", "Reboot"]

/-- `VISIBLE_LINES = 7`: number of menu rows visible at once. -/
def VISIBLE_LINES : ℤ := 7

/-- `IDLE_TIMEOUT = 30.0`: seconds of inactivity on the menu before ambient mode. -/
def IDLE_TIMEOUT : ℚ := 30

/-- `WEATHER_UPDATE_INTERVAL = 600`: seconds between weather fetches. -/
def WEATHER_UPDATE_INTERVAL : ℚ := 600

/-- The timeout passed to `submenu_thread.join(timeout=1)` in `stop_submenu`. -/
def STOP_JOIN_TIMEOUT : ℚ := 1

/-- `current_view` is either `"menu"` or `"background"`. -/
inductive View
  | menu
  | background
deriving DecidableEq, Repr

/-- The callables stored in the `perform_action` dispatch table. -/
inductive AppletTarget
  | screen_clock
  | screen_uptime
  | screen_loadavg
  | screen_diskspace
  | screen_smart
  | screen_animation
  | screen_gameoflife
  | screen_spaceinvaders
  | restart_jellyfin
  | restart_samba
  | poweroff
  | reboot
deriving DecidableEq, Repr

/-- A spawned applet thread: its identity, whether `is_alive()` currently
returns true, and the target it runs. -/
structure Th where
  tid : ℕ
  aliveB : Bool
  target : AppletTarget
deriving DecidableEq, Repr

/-- The module-level mutable globals of `menu.py` that belong to the
navigation state machine.  `next_tid` is a ghost counter giving each spawned
thread a fresh identity. -/
structure S where
  selected_index : ℤ
  menu_offset : ℤ
  steps : ℤ
  current_view : View
  show_weather : Bool
  background_cycle_start : ℚ
  last_user_activity : ℚ
  stop_set : Bool
  submenu_thread : Option Th
  next_tid : ℕ
deriving DecidableEq, Repr

/-- Observable actions a handler performs besides mutating the globals. -/
inductive Act
  | renderMenu
  | fade
  | slide
  | bgFrame
  | spawn (tid : ℕ)
  | joinCall (timeout : ℚ)
deriving DecidableEq, Repr

/-- The state at module start: `selected_index = 0`, `menu_offset = 0`,
`current_view = "menu"`, no thread, stop event clear, encoder at zero. -/
def initState : S :=
  { selected_index := 0
    menu_offset := 0
    steps := 0
    current_view := View.menu
    show_weather := false
    background_cycle_start := 0
    last_user_activity := 0
    stop_set := false
    submenu_thread := none
    next_tid := 0 }

/-- The Python guard `submenu_thread and submenu_thread.is_alive()`. -/
def threadAlive (s : S) : Bool :=
  match s.submenu_thread with
  | none => false
  | some t => t.aliveB

/-- `mark_activity()`: record now as the last user activity time. -/
def mark_activity (now : ℚ) (s : S) : S :=
  { s with last_user_activity := now }

/-- `show_menu()`: clamp `menu_offset` so the selected item is visible
(`if selected_index < menu_offset: menu_offset = selected_index
 elif selected_index >= menu_offset + VISIBLE_LINES:
 menu_offset = selected_index - VISIBLE_LINES + 1`), then draw and display
the menu image. -/
def show_menu (s : S) : S × List Act :=
  let mo :=
    if s.selected_index < s.menu_offset then s.selected_index
    else if s.selected_index ≥ s.menu_offset + VISIBLE_LINES then
      s.selected_index - VISIBLE_LINES + 1
    else s.menu_offset
  ({ s with menu_offset := mo }, [Act.renderMenu])

/-- `render_menu_image_only()`: same offset clamp as `show_menu`, builds the
menu image without pushing it to the display. -/
def render_menu_image_only (s : S) : S :=
  let mo :=
    if s.selected_index < s.menu_offset then s.selected_index
    else if s.selected_index ≥ s.menu_offset + VISIBLE_LINES then
      s.selected_index - VISIBLE_LINES + 1
    else s.menu_offset
  { s with menu_offset := mo }

/-- `start_submenu(target)`: `stop_event.clear()`, create a daemon thread for
`target` and start it.  There is no aliveness guard in this function. -/
def start_submenu (target : AppletTarget) (s : S) : S × List Act :=
  let s1 := { s with stop_set := false }
  ({ s1 with
      submenu_thread := some { tid := s.next_tid, aliveB := true, target := target }
      next_tid := s.next_tid + 1 },
   [Act.spawn s.next_tid])

/-- `Thread.join(timeout)`: given the time `exitIn` until the thread actually
exits (`none` for a hung thread that never exits), returns how long the caller
blocks and whether the thread had exited when `join` returned. -/
def thread_join (exitIn : Option ℚ) (timeout : ℚ) : ℚ × Bool :=
  match exitIn with
  | some r => if r ≤ timeout then (max r 0, true) else (timeout, false)
  | none => (timeout, false)

/-- `stop_submenu()`: `stop_event.set()`, join the thread with a one second
timeout if it is alive, then `show_menu()`.  Returns the new state, the time
the caller was blocked in `join`, and the emitted actions. -/
def stop_submenu (exitIn : Option ℚ) (s : S) : S × ℚ × List Act :=
  let s1 := { s with stop_set := true }
  match s1.submenu_thread with
  | some t =>
    if t.aliveB then
      let j := thread_join exitIn STOP_JOIN_TIMEOUT
      let s2 := { s1 with submenu_thread := some { t with aliveB := !j.2 } }
      let r := show_menu s2
      (r.1, j.1, Act.joinCall STOP_JOIN_TIMEOUT :: r.2)
    else
      let r := show_menu s1
      (r.1, 0, r.2)
  | none =>
    let r := show_menu s1
    (r.1, 0, r.2)

/-- The `actions` dictionary in `perform_action`, keyed by menu index. -/
def actions_table (index : ℤ) : Option AppletTarget :=
  if index = 0 then some AppletTarget.screen_clock
  else if index = 1 then some AppletTarget.screen_uptime
  else if index = 2 then some AppletTarget.screen_loadavg
  else if index = 3 then some AppletTarget.screen_diskspace
  else if index = 4 then some AppletTarget.screen_smart
  else if index = 5 then some AppletTarget.screen_animation
  else if index = 6 then some AppletTarget.screen_gameoflife
  else if index = 7 then some AppletTarget.screen_spaceinvaders
  else if index = 8 then some AppletTarget.restart_jellyfin
  else if index = 9 then some AppletTarget.restart_samba
  else if index = 10 then some AppletTarget.poweroff
  else if index = 11 then some AppletTarget.reboot
  else none

/-- `perform_action(index)`: look up the action and start it as a submenu
thread when the lookup yields a callable. -/
def perform_action (index : ℤ) (s : S) : S × List Act :=
  match actions_table index with
  | some act => start_submenu act s
  | none => (s, [])

/-- `wake_to_menu()`: when the background view is showing, render the menu
image (clamping the offset), dissolve-fade to it, switch `current_view` to
`"menu"` and `show_menu()`. -/
def wake_to_menu (s : S) : S × List Act :=
  if s.current_view = View.background then
    let s1 := render_menu_image_only s
    let s2 := { s1 with current_view := View.menu }
    let r := show_menu s2
    (r.1, Act.fade :: r.2)
  else (s, [])

/-- `confirm_pressed()`: mark activity; wake from background if needed;
if a submenu thread is alive set the stop event; otherwise perform the
selected action. -/
def confirm_pressed (now : ℚ) (s : S) : S × List Act :=
  let s1 := mark_activity now s
  if s1.current_view = View.background then wake_to_menu s1
  else if threadAlive s1 then ({ s1 with stop_set := true }, [])
  else perform_action s1.selected_index s1

/-- `back_pressed()`: mark activity; wake from background if needed; if a
submenu thread is alive set the stop event; otherwise re-show the menu. -/
def back_pressed (now : ℚ) (s : S) : S × List Act :=
  let s1 := mark_activity now s
  if s1.current_view = View.background then wake_to_menu s1
  else if threadAlive s1 then ({ s1 with stop_set := true }, [])
  else show_menu s1

/-- `knob_pressed()` simply delegates to `confirm_pressed()`. -/
def knob_pressed (now : ℚ) (s : S) : S × List Act :=
  confirm_pressed now s

/-- `on_rotate()`: mark activity; wake from background if needed; ignore the
event while a submenu thread is alive; otherwise set
`selected_index = encoder.steps % len(menu_items)` and `show_menu()`. -/
def on_rotate (now : ℚ) (s : S) : S × List Act :=
  let s1 := mark_activity now s
  if s1.current_view = View.background then wake_to_menu s1
  else if threadAlive s1 then (s1, [])
  else
    let s2 := { s1 with selected_index := s1.steps % (menu_items.length : ℤ) }
    show_menu s2

/-- A `Rotate(delta)` event: the encoder driver adds `delta` to
`encoder.steps` and then fires the `when_rotated` callback `on_rotate`. -/
def rotate_event (delta : ℤ) (now : ℚ) (s : S) : S × List Act :=
  on_rotate now { s with steps := s.steps + delta }

/-- The `btn_confirm.when_pressed` lambda:
`confirm_pressed() if not (submenu_thread and submenu_thread.is_alive())
 else stop_submenu()`. -/
def btn_confirm_handler (exitIn : Option ℚ) (now : ℚ) (s : S) : S × List Act :=
  if threadAlive s = false then confirm_pressed now s
  else
    let r := stop_submenu exitIn s
    (r.1, r.2.2)

/-- The `btn_back.when_pressed` lambda:
`stop_submenu() if (submenu_thread and submenu_thread.is_alive())
 else back_pressed()`. -/
def btn_back_handler (exitIn : Option ℚ) (now : ℚ) (s : S) : S × List Act :=
  if threadAlive s then
    let r := stop_submenu exitIn s
    (r.1, r.2.2)
  else back_pressed now s

/-- `show_background_loop_frame()`: initialise the cycle start on first use,
flip between the system and weather sub-views with a slide transition every
15 seconds, otherwise redraw the current sub-view. -/
def show_background_loop_frame (now : ℚ) (s : S) : S × List Act :=
  let s0 :=
    if s.background_cycle_start = 0 then { s with background_cycle_start := now } else s
  let elapsed := now - s0.background_cycle_start
  if s0.show_weather ∧ elapsed > 15 then
    ({ s0 with show_weather := false, background_cycle_start := now }, [Act.slide])
  else if (¬ s0.show_weather) ∧ elapsed > 15 then
    ({ s0 with show_weather := true, background_cycle_start := now }, [Act.slide])
  else (s0, [Act.bgFrame])

/-- One iteration of the `while True` body of `main()` after the 50 ms sleep:
skip everything while a submenu thread is alive; on the menu view check the
idle timeout and slide to the background view when it has elapsed; on the
background view run `show_background_loop_frame`. -/
def main_tick (now : ℚ) (s : S) : S × List Act :=
  if threadAlive s then (s, [])
  else if s.current_view = View.menu then
    if now - s.last_user_activity ≥ IDLE_TIMEOUT then
      let s1 := render_menu_image_only s
      ({ s1 with
          current_view := View.background
          show_weather := false
          background_cycle_start := now },
       [Act.slide])
    else (s, [])
  else show_background_loop_frame now s

/-! ### Transition engine

`slide_transition` and `fade_to_menu` each build a sequence of frames and push
them to the display with a fixed delay.  We model a monochrome bitmap as a
pixel function and the transitions as the lists of frames they push; the
delays and display calls carry no state. -/

/-- A monochrome bitmap as a total pixel function; the display only ever shows
the `WIDTH × HEIGHT` region. -/
def Bitmap : Type := ℕ → ℕ → Bool

/-- The all-white test bitmap. -/
def bmp_white : Bitmap := fun _ _ => true

/-- The all-black test bitmap. -/
def bmp_black : Bitmap := fun _ _ => false

/-- The offsets walked by `for offset in range(0, WIDTH + 1, step)`:
`0, step, 2*step, ...` while `< WIDTH + 1`. -/
def slide_offsets (step : ℕ) : List ℕ :=
  (List.range ((WIDTH + 1 + step - 1) / step)).map (fun i => i * step)

/-- One slide frame: a blank frame, `img_from` pasted at `(-offset, 0)`, then
`img_to` pasted at `(WIDTH - offset, 0)`.  A pixel `(x, y)` therefore shows
`img_to (x - (WIDTH - offset)) y` when `x ≥ WIDTH - offset`, else
`img_from (x + offset) y` when `x + offset < WIDTH`, else background. -/
def slide_frame (img_from img_to : Bitmap) (offset : ℕ) : Bitmap :=
  fun x y =>
    if WIDTH - offset ≤ x then img_to (x - (WIDTH - offset)) y
    else if x + offset < WIDTH then img_from (x + offset) y
    else false

/-- The frames pushed by `slide_transition(img_from, img_to, delay, step)`. -/
def slide_transition_frames (img_from img_to : Bitmap) (step : ℕ) : List Bitmap :=
  (slide_offsets step).map (slide_frame img_from img_to)

/-- Frame `k` of the dissolve: the mask sets the rows with `y % steps < k`, so
those rows show `to_menu_img` and the rest still show `from_img`. -/
def fade_frame (from_img to_menu_img : Bitmap) (steps k : ℕ) : Bitmap :=
  fun x y => if y % steps < k then to_menu_img x y else from_img x y

/-- The frames pushed by `fade_to_menu(from_img, to_menu_img, duration, steps)`:
one frame for each `k in range(1, steps + 1)`. -/
def fade_to_menu_frames (from_img to_menu_img : Bitmap) (steps : ℕ) : List Bitmap :=
  (List.range steps).map (fun i => fade_frame from_img to_menu_img steps (i + 1))

/-! ### Game applets and the knob binding

`screen_spaceinvaders` and `screen_gameoflife` temporarily rebind
`btn_knob.when_pressed` and restore it in a `finally` block.  We embed only
their effect on the GPIO callback bindings: the bodies of both game loops
never assign `btn_knob.when_pressed` or `encoder.when_rotated`, so the loop is
modelled as leaving the bindings fixed while finishing with an arbitrary exit
(normal return, cancellation via `stop_event`, a back-button return, or an
unexpected exception propagating out of the loop). -/

/-- Possible values of `btn_knob.when_pressed`. -/
inductive KnobBinding
  | knob_press_fn
  | fire_bullet
  | regenerate
  | otherK (n : ℕ)
deriving DecidableEq, Repr

/-- Possible values of `encoder.when_rotated`. -/
inductive RotateBinding
  | rotate_fn
  | disabled
  | otherR (n : ℕ)
deriving DecidableEq, Repr

/-- The shared GPIO callback bindings. -/
structure Gpio where
  knob_binding : KnobBinding
  rotate_binding : RotateBinding
deriving DecidableEq, Repr

/-- How a game loop body finished. -/
inductive GameExit
  | normal
  | canceled
  | backExit
  | exn
deriving DecidableEq, Repr

/-- `disable_menu_rotation()`: point `encoder.when_rotated` at a no-op. -/
def disable_menu_rotation (g : Gpio) : Gpio :=
  { g with rotate_binding := RotateBinding.disabled }

/-- `enable_menu_rotation()`: point `encoder.when_rotated` back at `on_rotate`. -/
def enable_menu_rotation (g : Gpio) : Gpio :=
  { g with rotate_binding := RotateBinding.rotate_fn }

/-- Python `try: body finally: fin` semantics on the binding state: the
finaliser runs after the body on every exit, including an exception that then
keeps propagating. -/
def try_finally (body : Gpio → Gpio × GameExit) (fin : Gpio → Gpio) (g : Gpio) :
    Gpio × GameExit :=
  let r := body g
  (fin r.1, r.2)

/-- Binding effect of `screen_spaceinvaders()`: `disable_menu_rotation()`,
save `old_knob_handler = btn_knob.when_pressed`, rebind it to `fire_bullet`,
run the game loop under `try`, and in `finally` restore the saved handler and
`enable_menu_rotation()`. -/
def screen_spaceinvaders_bindings (exit : GameExit) (g : Gpio) : Gpio × GameExit :=
  let g0 := disable_menu_rotation g
  let old_knob_handler := g0.knob_binding
  let g1 := { g0 with knob_binding := KnobBinding.fire_bullet }
  try_finally (fun gb => (gb, exit))
    (fun gf => enable_menu_rotation { gf with knob_binding := old_knob_handler }) g1

/-- Binding effect of `screen_gameoflife()`: save
`old_knob_handler = btn_knob.when_pressed`, rebind it to
`regenerate_pressed`, run the loop under `try`, and in `finally` restore the
saved handler. -/
def screen_gameoflife_bindings (exit : GameExit) (g : Gpio) : Gpio × GameExit :=
  let old_knob_handler := g.knob_binding
  let g1 := { g with knob_binding := KnobBinding.regenerate }
  try_finally (fun gb => (gb, exit))
    (fun gf => { gf with knob_binding := old_knob_handler }) g1

/-! ### Weather cache (`get_weather`)

`get_weather` reads and writes the globals `last_weather_update` and
`cached_weather`.  The network call and the JSON field accesses sit inside one
`try` whose `except Exception: pass` swallows every failure; we model the raw
response as an optional record (`none` when `requests.get` or `r.json()`
raises) whose `current_weather` member is itself optional (`none` when
`data["current_weather"]` raises a `KeyError`).  The other JSON accesses use
`.get` with defaults and cannot raise. -/

/-- The cached weather snapshot (`cached_weather` global). -/
structure Weather where
  temp_f : ℚ
  condition : String
  forecast : List ℚ
deriving DecidableEq, Repr

/-- The `data["current_weather"]` object: `temperature` is read with indexing,
`weathercode` with `.get("weathercode", 0)`. -/
structure CurrentWeather where
  temperature : ℚ
  weathercode : Option ℤ
deriving DecidableEq, Repr

/-- The decoded JSON response body. -/
structure WeatherResponse where
  current_weather : Option CurrentWeather
  hourly_temperature_2m : Option (List ℚ)
deriving DecidableEq, Repr

/-- The two weather globals. -/
structure WeatherState where
  last_weather_update : ℚ
  cached_weather : Weather
deriving DecidableEq, Repr

/-- `cached_weather = {"temp_f": 0, "condition": "sun", "forecast": []}`. -/
def initial_cached_weather : Weather :=
  { temp_f := 0, condition := "sun", forecast := [] }

/-- The weather globals at module start. -/
def initWeatherState : WeatherState :=
  { last_weather_update := 0, cached_weather := initial_cached_weather }

/-- `get_weather()`: return the cache when it is younger than
`WEATHER_UPDATE_INTERVAL`; otherwise fetch, convert and cache the response,
leaving the globals untouched when the fetch or a required field access
raises.  The boolean result records whether a network request was attempted. -/
def get_weather (now : ℚ) (fetch : Option WeatherResponse) (w : WeatherState) :
    WeatherState × Weather × Bool :=
  if now - w.last_weather_update < WEATHER_UPDATE_INTERVAL then
    (w, w.cached_weather, false)
  else
    match fetch with
    | none => (w, w.cached_weather, true)
    | some data =>
      match data.current_weather with
      | none => (w, w.cached_weather, true)
      | some cur =>
        let temp_c := cur.temperature
        let temp_f := temp_c * 9 / 5 + 32
        let code := cur.weathercode.getD 0
        let cond :=
          if code ∈ ([61, 63, 65, 80, 81] : List ℤ) then "rain"
          else if code ∈ ([71, 73, 75, 77, 85, 86] : List ℤ) then "snow"
          else if code ∈ ([0, 1, 2, 3] : List ℤ) then "sun"
          else if code ∈ ([95, 96, 99] : List ℤ) then "storm"
          else "cloud"
        let temps := (data.hourly_temperature_2m.getD [temp_c]).take 4
        let temp_fs := temps.map (fun t => t * 9 / 5 + 32)
        let cw : Weather := { temp_f := temp_f, condition := cond, forecast := temp_fs }
        ({ last_weather_update := now, cached_weather := cw }, cw, true)

/-! ### Derived definitions used by the theorems -/

/-- Deliver a sequence of `Rotate` events to the state, all at time `now`. -/
def apply_rotates (now : ℚ) (deltas : List ℤ) (s : S) : S :=
  deltas.foldl (fun st d => (rotate_event d now st).1) s

/-- A reachable-shape state with an applet thread alive: on the menu view with
the clock applet running and the stop event already set. -/
def aliveState : S :=
  { selected_index := 0
    menu_offset := 0
    steps := 0
    current_view := View.menu
    show_weather := false
    background_cycle_start := 0
    last_user_activity := 0
    stop_set := true
    submenu_thread := some { tid := 0, aliveB := true, target := AppletTarget.screen_clock }
    next_tid := 1 }

/-! ### Theorems -/

/-- Unfolding lemma for `threadAlive` that survives structure updates. -/
theorem threadAlive_def (s : S) :
    threadAlive s = (Option.map Th.aliveB s.submenu_thread).getD false := by
  cases h : s.submenu_thread <;> simp [threadAlive, h]

/-- A `Rotate(delta)` event handled on the menu view with no applet thread
alive keeps the view and thread, adds the delta to the encoder counter and
sets `selected_index` to the counter modulo the menu length. -/
theorem rotate_event_step (d : ℤ) (now : ℚ) (s : S)
    (hview : s.current_view = View.menu) (halive : threadAlive s = false) :
    (rotate_event d now s).1.current_view = View.menu ∧
    threadAlive (rotate_event d now s).1 = false ∧
    (rotate_event d now s).1.steps = s.steps + d ∧
    (rotate_event d now s).1.selected_index
      = (s.steps + d) % (menu_items.length : ℤ) := by
  rw [threadAlive_def] at halive
  simp [rotate_event, on_rotate, mark_activity, show_menu, threadAlive_def,
    hview, halive]

/-- Folding any list of `Rotate` events over a menu-view state with no applet
alive keeps the view and thread, accumulates the deltas into the encoder
counter and keeps `selected_index` equal to the counter modulo the menu
length. -/
theorem apply_rotates_spec (now : ℚ) (deltas : List ℤ) (s : S)
    (hview : s.current_view = View.menu) (halive : threadAlive s = false) :
    (apply_rotates now deltas s).current_view = View.menu ∧
    threadAlive (apply_rotates now deltas s) = false ∧
    (apply_rotates now deltas s).steps = s.steps + deltas.sum ∧
    (deltas = [] ∨
      (apply_rotates now deltas s).selected_index
        = (apply_rotates now deltas s).steps % (menu_items.length : ℤ)) := by
  induction deltas generalizing s with
  | nil => simp [apply_rotates, hview, halive]
  | cons d ds ih =>
    have hstep := rotate_event_step d now s hview halive
    have hrec := ih (rotate_event d now s).1 hstep.1 hstep.2.1
    have hfold : apply_rotates now (d :: ds) s
        = apply_rotates now ds (rotate_event d now s).1 := rfl
    rcases ds with _ | ⟨d2, ds2⟩
    · refine ⟨?_, ?_, ?_, Or.inr ?_⟩ <;>
        simp_all [apply_rotates]
    · refine ⟨hfold ▸ hrec.1, hfold ▸ hrec.2.1, ?_, Or.inr ?_⟩
      · rw [hfold, hrec.2.2.1, hstep.2.2.1]
        simp [add_assoc]
      · rcases hrec.2.2.2 with hnil | hsel
        · exact absurd hnil (by simp)
        · rw [hfold]; exact hsel

/-- C1: starting from the initial state, after any sequence of `Rotate`
events handled on the menu with no applet alive, `selected_index` lies in
`[0, len(menu_items))` and equals the sum of the deltas modulo the menu
length; moreover a single rotation in a state whose selection already equals
the encoder counter modulo the length updates `selected_index` to
`(selected_index + delta) mod len(menu_items)`. -/
theorem C1_rotate_wraps (now : ℚ) (deltas : List ℤ) (s : S) (d : ℤ) :
    (0 ≤ (apply_rotates now deltas initState).selected_index ∧
     (apply_rotates now deltas initState).selected_index < (menu_items.length : ℤ) ∧
     (apply_rotates now deltas initState).selected_index
       = deltas.sum % (menu_items.length : ℤ)) ∧
    (s.current_view = View.menu → threadAlive s = false →
      s.selected_index = s.steps % (menu_items.length : ℤ) →
      (rotate_event d now s).1.selected_index
        = (s.selected_index + d) % (menu_items.length : ℤ)) := by
  have hlen : (menu_items.length : ℤ) = 12 := rfl
  constructor
  · have h := apply_rotates_spec now deltas initState rfl rfl
    have hsel : (apply_rotates now deltas initState).selected_index
        = deltas.sum % (menu_items.length : ℤ) := by
      rcases h.2.2.2 with hnil | hinv
      · subst hnil; rfl
      · rw [hinv, h.2.2.1]; norm_num [initState]
    refine ⟨?_, ?_, hsel⟩
    · rw [hsel, hlen]; omega
    · rw [hsel, hlen]; omega
  · intro hview halive hinv
    have hstep := rotate_event_step d now s hview halive
    rw [hstep.2.2.2, hinv, hlen]
    omega

/-- C1 witness: the spec example `N = 12`, deltas `[+1, +1, -3]` ends at
`(0 + 1 + 1 - 3) mod 12 = 11`, and a single `Rotate(+5)` from the initial
state selects `(0 + 5) mod 12`. -/
theorem C1_rotate_wraps_witness :
    (0 ≤ (apply_rotates 0 [1, 1, -3] initState).selected_index ∧
     (apply_rotates 0 [1, 1, -3] initState).selected_index < (menu_items.length : ℤ) ∧
     (apply_rotates 0 [1, 1, -3] initState).selected_index
       = ([1, 1, -3] : List ℤ).sum % (menu_items.length : ℤ)) ∧
    (rotate_event 5 0 initState).1.selected_index
      = (initState.selected_index + 5) % (menu_items.length : ℤ) := by
  have h := C1_rotate_wraps 0 [1, 1, -3] initState 5
  exact ⟨h.1, h.2 rfl rfl rfl⟩

/-- C2: after every menu render — both `show_menu` and
`render_menu_image_only` — the offset satisfies
`menu_offset ≤ selected_index < menu_offset + VISIBLE_LINES`, and the
invariant is re-established by clamping the offset while `selected_index` is
left unchanged. -/
theorem C2_scroll_invariant (s : S) :
    ((show_menu s).1.menu_offset ≤ s.selected_index ∧
      s.selected_index < (show_menu s).1.menu_offset + VISIBLE_LINES ∧
      (show_menu s).1.selected_index = s.selected_index) ∧
    ((render_menu_image_only s).menu_offset ≤ s.selected_index ∧
      s.selected_index < (render_menu_image_only s).menu_offset + VISIBLE_LINES ∧
      (render_menu_image_only s).selected_index = s.selected_index) := by
  simp only [show_menu, render_menu_image_only, VISIBLE_LINES]
  split_ifs <;> simp_all <;> omega

/-- C4: `stop_submenu` signals the stop event, blocks its caller for at most
the configured one second join timeout whatever the applet thread does, and a
`start_submenu` issued afterwards always succeeds in installing a fresh alive
thread — there is no permanently stuck already-running state. -/
theorem C4_stop_bounded_restart (exitIn : Option ℚ) (s : S) (t : AppletTarget) :
    (stop_submenu exitIn s).1.stop_set = true ∧
    (stop_submenu exitIn s).2.1 ≤ STOP_JOIN_TIMEOUT ∧
    (start_submenu t (stop_submenu exitIn s).1).1.submenu_thread
      = some { tid := (stop_submenu exitIn s).1.next_tid, aliveB := true, target := t } ∧
    threadAlive (start_submenu t (stop_submenu exitIn s).1).1 = true := by
  simp only [stop_submenu, start_submenu, show_menu, thread_join, threadAlive,
    STOP_JOIN_TIMEOUT]
  rcases h : s.submenu_thread with _ | th <;>
    rcases exitIn with _ | r <;>
    simp_all <;> split_ifs <;> simp_all

/-- C9: both game applets save the previous knob-press binding on entry and
restore exactly that binding on every exit path of the loop — normal return,
cancellation, back-press return, or an unexpected exception — because the
restore sits in a `finally` block; the exit reason itself is passed through
unchanged. -/
theorem C9_knob_binding_restored (g : Gpio) (e : GameExit) :
    (screen_spaceinvaders_bindings e g).1.knob_binding = g.knob_binding ∧
    (screen_gameoflife_bindings e g).1.knob_binding = g.knob_binding ∧
    (screen_spaceinvaders_bindings e g).2 = e ∧
    (screen_gameoflife_bindings e g).2 = e := by
  simp [screen_spaceinvaders_bindings, screen_gameoflife_bindings, try_finally,
    enable_menu_rotation, disable_menu_rotation]

/-- C10: `get_weather` is cache-stable within the refresh interval — a call
less than `WEATHER_UPDATE_INTERVAL` after the last update returns the cached
snapshot, leaves both globals unchanged and attempts no fetch — and atomic on
failure: when the request, the JSON decoding or the `current_weather` access
raises, the globals are unchanged and the previously cached snapshot is
returned. -/
theorem C10_weather_cache (w : WeatherState) (now : ℚ) (fetch : Option WeatherResponse) :
    (now - w.last_weather_update < WEATHER_UPDATE_INTERVAL →
      get_weather now fetch w = (w, w.cached_weather, false)) ∧
    (fetch.bind (fun d => d.current_weather) = none →
      (get_weather now fetch w).1 = w ∧
      (get_weather now fetch w).2.1 = w.cached_weather) := by
  simp only [get_weather]
  rcases fetch with _ | data
  · split_ifs <;> simp_all
  · rcases h : data.current_weather with _ | cur <;> split_ifs <;> simp_all

/-- C10 witness: at time 100 with the initial weather state the cache is 100
seconds old, so the snapshot is returned with no fetch; a failing fetch also
leaves the state unchanged. -/
theorem C10_weather_cache_witness :
    get_weather 100 none initWeatherState
      = (initWeatherState, initWeatherState.cached_weather, false) ∧
    (get_weather 100 none initWeatherState).1 = initWeatherState ∧
    (get_weather 100 none initWeatherState).2.1 = initWeatherState.cached_weather := by
  have h := C10_weather_cache initWeatherState 100 none
  exact ⟨h.1 (by norm_num [initWeatherState, WEATHER_UPDATE_INTERVAL]), h.2 rfl⟩

/-- C3 counterexample: `start_submenu` itself carries no aliveness guard.
Invoked while the clock applet thread is alive with the stop event set, it
clears the cancellation signal and replaces the thread handle — it is not a
no-op. -/
theorem C3_start_counterexample :
    threadAlive aliveState = true ∧
    (start_submenu AppletTarget.screen_gameoflife aliveState).1.stop_set
      ≠ aliveState.stop_set ∧
    (start_submenu AppletTarget.screen_gameoflife aliveState).1.submenu_thread
      ≠ aliveState.submenu_thread := by
  decide

/-- C3 amended: the already-running guard lives in the callers, not in
`start_submenu`.  While an applet thread is alive (on the menu view),
`confirm_pressed` only sets the stop event — the thread handle, the thread
counter and the action list show no new task — and the `btn_confirm` wiring
routes to `stop_submenu`, never to `perform_action`, so no second task or
handle is ever created through the input handlers. -/
theorem C3_no_start_while_alive (now : ℚ) (s : S)
    (halive : threadAlive s = true) (hview : s.current_view = View.menu) :
    (confirm_pressed now s).1.submenu_thread = s.submenu_thread ∧
    (confirm_pressed now s).1.next_tid = s.next_tid ∧
    (confirm_pressed now s).1.stop_set = true ∧
    (∀ a, Act.spawn a ∉ (confirm_pressed now s).2) ∧
    (∀ exitIn, (btn_confirm_handler exitIn now s).1.next_tid = s.next_tid ∧
      (btn_confirm_handler exitIn now s).1.stop_set = true ∧
      (∀ a, Act.spawn a ∉ (btn_confirm_handler exitIn now s).2)) := by
  rcases hth : s.submenu_thread with _ | th
  · rw [threadAlive_def, hth] at halive; cases halive
  · rw [threadAlive_def, hth] at halive
    simp only [Option.map_some', Option.getD_some] at halive
    refine ⟨?_, ?_, ?_, ?_, ?_⟩
    · simp [confirm_pressed, mark_activity, threadAlive_def, hview, hth, halive]
    · simp [confirm_pressed, mark_activity, threadAlive_def, hview, hth, halive]
    · simp [confirm_pressed, mark_activity, threadAlive_def, hview, hth, halive]
    · simp [confirm_pressed, mark_activity, threadAlive_def, hview, hth, halive]
    · intro exitIn
      rcases exitIn with _ | r
      · refine ⟨?_, ?_, ?_⟩ <;>
          simp [btn_confirm_handler, stop_submenu, show_menu, thread_join,
            threadAlive_def, hth, halive]
      · by_cases hr : r ≤ STOP_JOIN_TIMEOUT <;>
          refine ⟨?_, ?_, ?_⟩ <;>
            simp [btn_confirm_handler, stop_submenu, show_menu, thread_join,
              threadAlive_def, hth, halive, hr]

/-- C3 witness for the amended theorem: in the concrete alive state, confirm
leaves the thread handle in place, signals stop, and the button wiring leaves
the thread counter unchanged. -/
theorem C3_no_start_while_alive_witness :
    threadAlive aliveState = true ∧
    (confirm_pressed 5 aliveState).1.submenu_thread = aliveState.submenu_thread ∧
    (confirm_pressed 5 aliveState).1.stop_set = true ∧
    (btn_confirm_handler none 5 aliveState).1.next_tid = aliveState.next_tid := by
  have h := C3_no_start_while_alive 5 aliveState rfl rfl
  exact ⟨rfl, h.1, h.2.2.1, (h.2.2.2.2 none).1⟩

/-- C5: the dissolve reveal produces exactly `steps` frames; in frame `k`
(for `k` in `1..steps`) a pixel row `y` shows the destination bitmap exactly
when `y % steps < k`; and the final frame is the destination bitmap itself. -/
theorem C5_fade_reveal (from_img to_menu_img : Bitmap) (steps : ℕ)
    (hs : 1 ≤ steps) :
    (fade_to_menu_frames from_img to_menu_img steps).length = steps ∧
    (∀ k x y, 1 ≤ k → k ≤ steps →
      (fade_to_menu_frames from_img to_menu_img steps).getD (k - 1) from_img x y
        = if y % steps < k then to_menu_img x y else from_img x y) ∧
    (fade_to_menu_frames from_img to_menu_img steps).getLast?
      = some to_menu_img := by
  refine ⟨by simp [fade_to_menu_frames], ?_, ?_⟩
  · intro k x y hk1 hk2
    have hk : k - 1 < steps := by omega
    rw [fade_to_menu_frames, List.getD_eq_getElem?_getD, List.getElem?_map,
      List.getElem?_range hk]
    have hkk : k - 1 + 1 = k := by omega
    simp [fade_frame, hkk]
  · have hlen : (fade_to_menu_frames from_img to_menu_img steps).length = steps := by
      simp [fade_to_menu_frames]
    have hlt : steps - 1 < steps := by omega
    rw [List.getLast?_eq_getElem? _, hlen, fade_to_menu_frames, List.getElem?_map,
      List.getElem?_range hlt]
    have hkk : steps - 1 + 1 = steps := by omega
    have hfr : fade_frame from_img to_menu_img steps steps = to_menu_img := by
      funext x y
      simp [fade_frame, Nat.mod_lt y (by omega : 0 < steps)]
    simp only [Option.map_some']
    rw [hkk, hfr]

/-- C5 witness: a two-step dissolve between the test bitmaps has two frames,
frame 1 reveals row 0 (since `0 % 2 < 1`), and the last frame is the
destination. -/
theorem C5_fade_reveal_witness :
    (fade_to_menu_frames bmp_black bmp_white 2).length = 2 ∧
    (fade_to_menu_frames bmp_black bmp_white 2).getD 0 bmp_black 0 0
      = (if 0 % 2 < 1 then bmp_white 0 0 else bmp_black 0 0) ∧
    (fade_to_menu_frames bmp_black bmp_white 2).getLast? = some bmp_white := by
  have h := C5_fade_reveal bmp_black bmp_white 2 (by norm_num)
  exact ⟨h.1, h.2.1 1 0 0 (by norm_num) (by norm_num), h.2.2⟩

/-- C6 counterexample: with `step = 3`, which does not divide
`WIDTH = 128`, the loop `range(0, WIDTH + 1, 3)` stops at offset 126, so the
final pushed frame still shows two columns of the source bitmap instead of
the destination — the claim fails for step sizes that do not divide the
width. -/
theorem C6_slide_counterexample :
    (slide_offsets 3).getLast? = some 126 ∧ (126 : ℕ) ≠ WIDTH ∧
    (slide_transition_frames bmp_white bmp_black 3).getLast? ≠ some bmp_black := by
  refine ⟨by decide, by decide, ?_⟩
  intro h
  have h1 : ((slide_transition_frames bmp_white bmp_black 3).getLast?.map
      (fun f => f 0 0)) = some true := by decide
  rw [h] at h1
  simp [bmp_black] at h1

/-- C6 amended: whenever the step size divides the display width — as the
default `step = 8` used at every call site does — the final offset reaches
the full width and the final slide frame equals the destination bitmap
exactly. -/
theorem C6_slide_final (img_from img_to : Bitmap) (step : ℕ)
    (hpos : 0 < step) (hdvd : step ∣ WIDTH) :
    (slide_transition_frames img_from img_to step).getLast? = some img_to := by
  have hcount : (WIDTH + 1 + step - 1) / step = WIDTH / step + 1 := by
    have he : WIDTH + 1 + step - 1 = WIDTH + step := by omega
    rw [he]
    exact Nat.add_div_right _ hpos
  have hlen : (slide_transition_frames img_from img_to step).length
      = WIDTH / step + 1 := by
    simp only [slide_transition_frames, slide_offsets, List.length_map,
      List.length_range]
    exact hcount
  have hidx : WIDTH / step + 1 - 1 < (WIDTH + 1 + step - 1) / step := by
    rw [hcount]
    exact Nat.sub_lt (Nat.succ_pos _) Nat.one_pos
  have hfr : slide_frame img_from img_to WIDTH = img_to := by
    funext x y
    simp [slide_frame, Nat.sub_self]
  rw [List.getLast?_eq_getElem? _, hlen, slide_transition_frames, slide_offsets,
    List.getElem?_map, List.getElem?_map, List.getElem?_range hidx]
  simp only [Option.map_some', Nat.add_sub_cancel]
  rw [Nat.div_mul_cancel hdvd, hfr]

/-- C6 witness for the amended theorem: with the default step 8 the final
frame equals the destination bitmap. -/
theorem C6_slide_final_witness :
    (slide_transition_frames bmp_black bmp_white 8).getLast? = some bmp_white :=
  C6_slide_final bmp_black bmp_white 8 (by norm_num) (by decide)

/-- Every run of `confirm_pressed` records the event time as the last user
activity and ends on the menu view (the background view wakes to the menu,
the menu view stays). -/
theorem confirm_pressed_view_last (now : ℚ) (s : S) :
    (confirm_pressed now s).1.current_view = View.menu ∧
    (confirm_pressed now s).1.last_user_activity = now := by
  simp only [confirm_pressed, mark_activity, wake_to_menu, perform_action,
    show_menu, render_menu_image_only, threadAlive_def]
  rcases hv : s.current_view
  · rcases hact : actions_table s.selected_index with _ | a <;>
      (split_ifs <;> simp_all [start_submenu])
  · split_ifs <;> simp_all

/-- Every run of `back_pressed` records the event time as the last user
activity and ends on the menu view. -/
theorem back_pressed_view_last (now : ℚ) (s : S) :
    (back_pressed now s).1.current_view = View.menu ∧
    (back_pressed now s).1.last_user_activity = now := by
  simp only [back_pressed, mark_activity, wake_to_menu, show_menu,
    render_menu_image_only, threadAlive_def]
  rcases hv : s.current_view <;> split_ifs <;> simp_all

/-- Every run of `on_rotate` (delivered as a `Rotate(delta)` event) records
the event time as the last user activity and ends on the menu view. -/
theorem rotate_event_view_last (d : ℤ) (now : ℚ) (s : S) :
    (rotate_event d now s).1.current_view = View.menu ∧
    (rotate_event d now s).1.last_user_activity = now := by
  simp only [rotate_event, on_rotate, mark_activity, wake_to_menu, show_menu,
    render_menu_image_only, threadAlive_def]
  rcases hv : s.current_view <;> split_ifs <;> simp_all

/-- `stop_submenu` leaves the view and the last-activity timestamp alone. -/
theorem stop_submenu_view_last (e : Option ℚ) (s : S) :
    (stop_submenu e s).1.current_view = s.current_view ∧
    (stop_submenu e s).1.last_user_activity = s.last_user_activity := by
  simp only [stop_submenu, show_menu, thread_join]
  rcases h : s.submenu_thread with _ | th
  · simp [h]
  · rcases e with _ | r <;> simp [h] <;> split_ifs <;> simp

/-- A Main Loop tick taken on the menu view before the idle threshold (or
with an applet thread alive) leaves the view on the menu. -/
theorem main_tick_stays_menu (now1 : ℚ) (s2 : S)
    (hv : s2.current_view = View.menu)
    (h : threadAlive s2 = true ∨ now1 - s2.last_user_activity < IDLE_TIMEOUT) :
    (main_tick now1 s2).1.current_view = View.menu := by
  simp only [main_tick]
  rcases h with h | h
  · simp [h, hv]
  · rcases ha : threadAlive s2
    · simp [ha, hv, not_le.mpr h, render_menu_image_only]
    · simp [ha, hv]

/-- A Main Loop tick taken on the menu view with no applet thread alive and
the idle threshold reached switches the view to the background. -/
theorem main_tick_to_background (now : ℚ) (s : S)
    (halive : threadAlive s = false) (hv : s.current_view = View.menu)
    (hidle : now - s.last_user_activity ≥ IDLE_TIMEOUT) :
    (main_tick now s).1.current_view = View.background := by
  simp [main_tick, halive, hv, hidle, render_menu_image_only]

/-- C7: with the menu showing and no applet alive, a Main Loop tick at or
past the idle threshold switches to the background (ambient) view; no input
handler ever switches the view to the background; and an input event at time
`t` resets the last-activity timestamp to `t`, so a tick taken while
`now1 - t < IDLE_TIMEOUT` still shows the menu. -/
theorem C7_idle_timeout (s : S) (now now1 t : ℚ) (d : ℤ) (exitIn : Option ℚ) :
    (threadAlive s = false → s.current_view = View.menu →
      now - s.last_user_activity ≥ IDLE_TIMEOUT →
      (main_tick now s).1.current_view = View.background) ∧
    ((rotate_event d t s).1.current_view = View.background →
      s.current_view = View.background) ∧
    ((btn_confirm_handler exitIn t s).1.current_view = View.background →
      s.current_view = View.background) ∧
    ((btn_back_handler exitIn t s).1.current_view = View.background →
      s.current_view = View.background) ∧
    ((knob_pressed t s).1.current_view = View.background →
      s.current_view = View.background) ∧
    (threadAlive s = false →
      (rotate_event d t s).1.last_user_activity = t ∧
      (btn_confirm_handler exitIn t s).1.last_user_activity = t ∧
      (btn_back_handler exitIn t s).1.last_user_activity = t ∧
      (now1 - t < IDLE_TIMEOUT →
        (main_tick now1 (rotate_event d t s).1).1.current_view = View.menu ∧
        (main_tick now1 (btn_confirm_handler exitIn t s).1).1.current_view
          = View.menu ∧
        (main_tick now1 (btn_back_handler exitIn t s).1).1.current_view
          = View.menu)) := by
  refine ⟨main_tick_to_background now s, ?_, ?_, ?_, ?_, ?_⟩
  · intro hbad
    rw [(rotate_event_view_last d t s).1] at hbad
    cases hbad
  · intro hbad
    rcases ha : threadAlive s
    · rw [btn_confirm_handler, if_pos ha, (confirm_pressed_view_last t s).1] at hbad
      cases hbad
    · rw [btn_confirm_handler, if_neg (by simp [ha]),
        (stop_submenu_view_last exitIn s).1] at hbad
      exact hbad
  · intro hbad
    rcases ha : threadAlive s
    · rw [btn_back_handler, if_neg (by simp [ha]),
        (back_pressed_view_last t s).1] at hbad
      cases hbad
    · rw [btn_back_handler, if_pos (by simp [ha]),
        (stop_submenu_view_last exitIn s).1] at hbad
      exact hbad
  · intro hbad
    rw [knob_pressed, (confirm_pressed_view_last t s).1] at hbad
    cases hbad
  · intro halive
    have hbc : btn_confirm_handler exitIn t s = confirm_pressed t s := by
      rw [btn_confirm_handler, if_pos halive]
    have hbb : btn_back_handler exitIn t s = back_pressed t s := by
      rw [btn_back_handler, if_neg (by simp [halive])]
    refine ⟨(rotate_event_view_last d t s).2,
      hbc ▸ (confirm_pressed_view_last t s).2,
      hbb ▸ (back_pressed_view_last t s).2, ?_⟩
    intro hlt
    refine ⟨?_, ?_, ?_⟩
    · exact main_tick_stays_menu now1 _ (rotate_event_view_last d t s).1
        (Or.inr (by rw [(rotate_event_view_last d t s).2]; exact hlt))
    · rw [hbc]
      exact main_tick_stays_menu now1 _ (confirm_pressed_view_last t s).1
        (Or.inr (by rw [(confirm_pressed_view_last t s).2]; exact hlt))
    · rw [hbb]
      exact main_tick_stays_menu now1 _ (back_pressed_view_last t s).1
        (Or.inr (by rw [(back_pressed_view_last t s).2]; exact hlt))

/-- C7 witness: from the initial state a tick at time 31 goes to the
background view, a `Rotate(+1)` at time 5 resets the timer to 5, and a tick
at time 20 afterwards still shows the menu. -/
theorem C7_idle_timeout_witness :
    (main_tick 31 initState).1.current_view = View.background ∧
    (rotate_event 1 5 initState).1.last_user_activity = 5 ∧
    (main_tick 20 (rotate_event 1 5 initState).1).1.current_view = View.menu := by
  have h := C7_idle_timeout initState 31 20 5 1 none
  have h6 := h.2.2.2.2.2 rfl
  exact ⟨h.1 rfl rfl (by norm_num [initState, IDLE_TIMEOUT]),
    h6.1, (h6.2.2.2 (by norm_num [IDLE_TIMEOUT])).1⟩

/-- C8: while an applet thread is alive (menu view), a `Rotate` event changes
neither the selection, the scroll offset, the view nor the thread and emits
no action, while the wired confirm and back buttons both run the
stop-and-return path: the stop event is set, a join bounded by the one second
timeout is performed, the menu is rendered, and no new task is created. -/
theorem C8_applet_running_input (s : S) (now : ℚ) (d : ℤ) (exitIn : Option ℚ)
    (halive : threadAlive s = true) (hview : s.current_view = View.menu) :
    ((rotate_event d now s).1.selected_index = s.selected_index ∧
     (rotate_event d now s).1.menu_offset = s.menu_offset ∧
     (rotate_event d now s).1.current_view = s.current_view ∧
     (rotate_event d now s).1.submenu_thread = s.submenu_thread ∧
     (rotate_event d now s).2 = []) ∧
    ((btn_confirm_handler exitIn now s).1.stop_set = true ∧
     Act.joinCall STOP_JOIN_TIMEOUT ∈ (btn_confirm_handler exitIn now s).2 ∧
     Act.renderMenu ∈ (btn_confirm_handler exitIn now s).2 ∧
     (btn_confirm_handler exitIn now s).1.next_tid = s.next_tid) ∧
    ((btn_back_handler exitIn now s).1.stop_set = true ∧
     Act.joinCall STOP_JOIN_TIMEOUT ∈ (btn_back_handler exitIn now s).2 ∧
     Act.renderMenu ∈ (btn_back_handler exitIn now s).2 ∧
     (btn_back_handler exitIn now s).1.next_tid = s.next_tid) := by
  rcases hth : s.submenu_thread with _ | th
  · rw [threadAlive_def, hth] at halive; cases halive
  · rw [threadAlive_def, hth] at halive
    simp only [Option.map_some', Option.getD_some] at halive
    refine ⟨?_, ?_, ?_⟩
    · simp [rotate_event, on_rotate, mark_activity, threadAlive_def, hview,
        hth, halive]
    · rcases exitIn with _ | r
      · refine ⟨?_, ?_, ?_, ?_⟩ <;>
          simp [btn_confirm_handler, stop_submenu, show_menu, thread_join,
            threadAlive_def, hth, halive]
      · by_cases hr : r ≤ STOP_JOIN_TIMEOUT <;>
          refine ⟨?_, ?_, ?_, ?_⟩ <;>
            simp [btn_confirm_handler, stop_submenu, show_menu, thread_join,
              threadAlive_def, hth, halive, hr]
    · rcases exitIn with _ | r
      · refine ⟨?_, ?_, ?_, ?_⟩ <;>
          simp [btn_back_handler, stop_submenu, show_menu, thread_join,
            threadAlive_def, hth, halive]
      · by_cases hr : r ≤ STOP_JOIN_TIMEOUT <;>
          refine ⟨?_, ?_, ?_, ?_⟩ <;>
            simp [btn_back_handler, stop_submenu, show_menu, thread_join,
              threadAlive_def, hth, halive, hr]

/-- C8 witness: in the concrete alive state a `Rotate(+3)` leaves the
selection unchanged, and both wired buttons set the stop event and render the
menu. -/
theorem C8_applet_running_input_witness :
    (rotate_event 3 2 aliveState).1.selected_index = aliveState.selected_index ∧
    (btn_confirm_handler none 2 aliveState).1.stop_set = true ∧
    Act.renderMenu ∈ (btn_back_handler none 2 aliveState).2 := by
  have h := C8_applet_running_input aliveState 2 3 none rfl rfl
  exact ⟨h.1.1, h.2.1.1, h.2.2.2.2.1⟩

end NasMenu
